import Mathlib

/-!
Verification of the EAF (electric arc furnace) simulator dashboard frontend.

The repository's JavaScript sources are shallowly embedded below:
* `ControlPanel` (simulation/operating parameter form, material injection form,
  derived power display) — `getCurrentPower`, `handleAddMaterial`,
  `handleSimulationParamChange`, `handleOperatingParamChange`;
* `Dashboard` (WebSocket message handling, snapshot history retention) —
  `processMessage`, `appendHistory`, `onRawMessage`;
* `ChartsPanel` (chart data derivation, carbon/silicon oxidation-rate series) —
  `chartPoint`, `chartData`.

JavaScript numbers are embedded as exact rationals (`ℚ`) except where the
NaN/Infinity distinction matters, where the inductive `JSNum` is used.
The backend simulation engine (Simulation Clock, Command Channel) is not among
the provided sources; the definitions marked `Modelled from the spec:` embed
its documented contract instead.
-/

/-- Operating parameters of the control panel form (`operatingParams` state in
`ControlPanel`).  Note the UI units: `arc_current` is in kiloamperes (kA) and
`arc_voltage` in volts. -/
structure OperatingParams where
  arc_voltage : ℚ
  arc_current : ℚ
  power_factor : ℚ
  electrode_position : ℚ
  oxygen_flow_rate : ℚ
  carbon_injection_rate : ℚ
  lime_addition_rate : ℚ
  dolomite_addition_rate : ℚ
  deriving DecidableEq

/-- The `useState` initial value of `operatingParams` in `ControlPanel`. -/
def defaultOperatingParams : OperatingParams where
  arc_voltage := 400
  arc_current := 50
  power_factor := 8/10
  electrode_position := 2
  oxygen_flow_rate := 5/10
  carbon_injection_rate := 1/10
  lime_addition_rate := 5/100
  dolomite_addition_rate := 3/100

/-- A simulation-data snapshot as consumed by the dashboard (wire fields the
embedded components read; absent fields are `none`, mirroring `undefined`). -/
structure Snapshot where
  simulation_time : Option ℚ
  current_power : Option ℚ
  zt_liquid_metal : Option ℚ
  zt_slag : Option ℚ
  zt_refractory : Option ℚ
  deriving DecidableEq

/-- `ControlPanel.getCurrentPower`: returns `0` when no simulation data has
arrived, else `arc_voltage * arc_current * power_factor / 1000`; the UI labels
the displayed value in megawatts (MW). -/
def getCurrentPower (simulationData : Option Snapshot) (p : OperatingParams) : ℚ :=
  match simulationData with
  | none => 0
  | some _ => p.arc_voltage * p.arc_current * p.power_factor / 1000

/-- The value of `getCurrentPower` converted from the displayed megawatts to
watts (1 MW = 10^6 W). -/
def getCurrentPowerWatts (simulationData : Option Snapshot) (p : OperatingParams) : ℚ :=
  1000000 * getCurrentPower simulationData p

/-- A sample received snapshot, used to instantiate theorems. -/
def sampleSnapshot1 : Snapshot where
  simulation_time := some 1
  current_power := some 16000
  zt_liquid_metal := some 1650
  zt_slag := some 1550
  zt_refractory := some 900

/-- A second sample snapshot. -/
def sampleSnapshot2 : Snapshot where
  simulation_time := some 2
  current_power := some 16000
  zt_liquid_metal := some 1660
  zt_slag := some 1555
  zt_refractory := some 905

/-- Claim C1: for every valid arc voltage `V` (volts), arc current (entered in
kA, so `I = 1000 * arc_current` amperes) and power factor `pf`, the reported
power in watts equals `V × I × pf`; in particular at the start defaults
`V = 400`, `arc_current = 50` (I = 50000 A), `pf = 0.8` the reported power is
16,000,000 W, independently of which tick's snapshot is current. -/
theorem current_power_eq_v_i_pf (simulationData : Option Snapshot) (d : Snapshot)
    (p : OperatingParams) (hd : simulationData = some d)
    (hV : 0 < p.arc_voltage) (hI : 0 < p.arc_current)
    (hpf0 : 0 < p.power_factor) (hpf1 : p.power_factor ≤ 1) :
    getCurrentPowerWatts simulationData p
      = p.arc_voltage * (1000 * p.arc_current) * p.power_factor ∧
    (p.arc_voltage = 400 → p.arc_current = 50 → p.power_factor = 8/10 →
      getCurrentPowerWatts simulationData p = 16000000) := by
  subst hd
  constructor
  · show 1000000 * (p.arc_voltage * p.arc_current * p.power_factor / 1000)
        = p.arc_voltage * (1000 * p.arc_current) * p.power_factor
    ring
  · intro h1 h2 h3
    show 1000000 * (p.arc_voltage * p.arc_current * p.power_factor / 1000) = 16000000
    rw [h1, h2, h3]
    norm_num

/-- Witness for C1: at the defaults and any received snapshot the reported
power is 16,000,000 W. -/
theorem current_power_eq_v_i_pf_witness :
    getCurrentPowerWatts (some sampleSnapshot1) defaultOperatingParams = 16000000 := by
  have h := current_power_eq_v_i_pf (some sampleSnapshot1) sampleSnapshot1
    defaultOperatingParams rfl (by norm_num [defaultOperatingParams])
    (by norm_num [defaultOperatingParams]) (by norm_num [defaultOperatingParams])
    (by norm_num [defaultOperatingParams])
  exact h.2 rfl rfl rfl

/-- The React state of the `Dashboard` component that the WebSocket
`onmessage` handler touches: `simulationData`, `simulationHistory`, `error`. -/
structure DashboardState where
  simulationData : Option Snapshot
  simulationHistory : List Snapshot
  error : Option String
  deriving DecidableEq

/-- The `useState` initial values of the `Dashboard` component. -/
def initialDashboardState : DashboardState where
  simulationData := none
  simulationHistory := []
  error := none

/-- The successfully parsed WebSocket messages `ws.onmessage` distinguishes by
their `type` field: `connection_status`, `heartbeat` (carrying only the
`simulation_running` status flag), `simulation_data`, and legacy messages
without a recognized type. -/
inductive WsMessage where
  | connection_status (message : String)
  | heartbeat (simulation_running : Bool)
  | simulation_data (d : Snapshot)
  | legacy (d : Snapshot)
  deriving DecidableEq

/-- The `setSimulationHistory` updater in `ws.onmessage`:
`[...prev, data].slice(-1000)` — append, then keep only the last 1000
entries (JavaScript `slice(-1000)` keeps the whole array when it is
shorter than 1000, matching truncated natural subtraction). -/
def appendHistory (prev : List Snapshot) (data : Snapshot) : List Snapshot :=
  let newHistory := prev ++ [data]
  newHistory.drop (newHistory.length - 1000)

/-- The body of `ws.onmessage` after a successful `JSON.parse`
(`Dashboard` component): `connection_status` clears the error, `heartbeat`
only logs, `simulation_data` and legacy messages replace `simulationData`
and append to the bounded history. -/
def processMessage (s : DashboardState) (m : WsMessage) : DashboardState :=
  match m with
  | .connection_status _ => { s with error := none }
  | .heartbeat _ => s
  | .simulation_data d =>
      { s with simulationData := some d
               simulationHistory := appendHistory s.simulationHistory d }
  | .legacy d =>
      { s with simulationData := some d
               simulationHistory := appendHistory s.simulationHistory d }

/-- The whole `ws.onmessage` handler: `JSON.parse` (here an arbitrary parse
function returning `none` on a parse error) inside `try`/`catch`; the catch
block only logs, so a failed parse leaves the state untouched. -/
def onRawMessage (parseMsg : String → Option WsMessage) (s : DashboardState)
    (raw : String) : DashboardState :=
  match parseMsg raw with
  | none => s
  | some m => processMessage s m

/-- Processing a sequence of received messages in arrival order. -/
def runMessages (s : DashboardState) (msgs : List WsMessage) : DashboardState :=
  msgs.foldl processMessage s

/-- The dashboard state after receiving a sequence of `simulation_data`
messages, starting from the initial state. -/
def runSimulationFeed (snaps : List Snapshot) : DashboardState :=
  runMessages initialDashboardState (snaps.map WsMessage.simulation_data)

/-- The last `n` elements of a list (the suffix of length `min n l.length`). -/
def lastN (n : ℕ) (l : List α) : List α := l.drop (l.length - n)

theorem lastN_append_lastN (n : ℕ) (hn : 0 < n) (l : List α) (a : α) :
    lastN n (lastN n l ++ [a]) = lastN n (l ++ [a]) := by
  unfold lastN
  rcases le_or_lt l.length n with h | h
  · rw [Nat.sub_eq_zero_of_le h, List.drop_zero]
  · have hlen : (l.drop (l.length - n)).length = n := by
      rw [List.length_drop]; omega
    rw [List.drop_append_eq_append_drop, List.drop_append_eq_append_drop]
    rw [List.length_append, List.length_append, hlen]
    simp only [List.length_cons, List.length_nil, List.length_drop]
    have h1 : n + 1 - n = 1 := by omega
    rw [h1, List.drop_drop]
    have h2 : l.length + 1 - n = l.length - n + 1 := by omega
    rw [h2]
    congr 2
    omega

theorem appendHistory_eq_lastN (prev : List Snapshot) (d : Snapshot) :
    appendHistory prev d = lastN 1000 (prev ++ [d]) := rfl

theorem runSimulationFeed_history (snaps : List Snapshot) :
    (runSimulationFeed snaps).simulationHistory = lastN 1000 snaps := by
  induction snaps using List.reverseRecOn with
  | nil => rfl
  | append_singleton l a ih =>
      unfold runSimulationFeed runMessages at ih ⊢
      rw [List.map_append, List.foldl_append]
      simp only [List.map_cons, List.map_nil, List.foldl_cons, List.foldl_nil,
        processMessage]
      rw [ih, appendHistory_eq_lastN, lastN_append_lastN 1000 (by norm_num)]

theorem runSimulationFeed_data (snaps : List Snapshot) :
    (runSimulationFeed snaps).simulationData = snaps.getLast? := by
  induction snaps using List.reverseRecOn with
  | nil => rfl
  | append_singleton l a ih =>
      unfold runSimulationFeed runMessages at ih ⊢
      rw [List.map_append, List.foldl_append]
      simp only [List.map_cons, List.map_nil, List.foldl_cons, List.foldl_nil]
      simp [processMessage]

/-- Claim C2: after processing any sequence of received `simulation_data`
messages, the retained history is exactly the last-1000 suffix of the arrival
sequence — so it holds at most 1000 entries and the oldest entries are the
ones evicted (FIFO). -/
theorem history_bounded_fifo (snaps : List Snapshot) :
    (runSimulationFeed snaps).simulationHistory = lastN 1000 snaps ∧
    (runSimulationFeed snaps).simulationHistory.length ≤ 1000 ∧
    (runSimulationFeed snaps).simulationHistory <:+ snaps := by
  refine ⟨runSimulationFeed_history snaps, ?_, ?_⟩
  · rw [runSimulationFeed_history]
    unfold lastN
    rw [List.length_drop]
    omega
  · rw [runSimulationFeed_history]
    exact List.drop_suffix _ _

/-- Claim C3: received snapshots are recorded in arrival order with no
reordering — each incoming snapshot becomes the current `simulationData`
(the final current snapshot is the last arrival), the history is always a
suffix of the arrival sequence, and as long as at most 1000 snapshots have
arrived the history equals the arrival sequence itself. -/
theorem history_preserves_arrival_order (snaps : List Snapshot) :
    (runSimulationFeed snaps).simulationData = snaps.getLast? ∧
    (runSimulationFeed snaps).simulationHistory <:+ snaps ∧
    (snaps.length ≤ 1000 → (runSimulationFeed snaps).simulationHistory = snaps) := by
  refine ⟨runSimulationFeed_data snaps, ?_, ?_⟩
  · rw [runSimulationFeed_history]
    exact List.drop_suffix _ _
  · intro h
    rw [runSimulationFeed_history]
    unfold lastN
    rw [Nat.sub_eq_zero_of_le h, List.drop_zero]

/-- Witness for C3: a concrete two-snapshot feed is recorded in arrival order
and the second snapshot is current. -/
theorem history_preserves_arrival_order_witness :
    (runSimulationFeed [sampleSnapshot1, sampleSnapshot2]).simulationHistory
      = [sampleSnapshot1, sampleSnapshot2] ∧
    (runSimulationFeed [sampleSnapshot1, sampleSnapshot2]).simulationData
      = some sampleSnapshot2 := by
  have h := history_preserves_arrival_order [sampleSnapshot1, sampleSnapshot2]
  exact ⟨h.2.2 (by norm_num), h.1.trans (by rfl)⟩

/-- Claim C7: a heartbeat message carries only the run-status flag and
processing it is a no-op on the dashboard state: the current snapshot data,
the snapshot history and the error display are exactly as before, whether or
not the simulation is running. -/
theorem heartbeat_frame_effect (s : DashboardState) (simulation_running : Bool) :
    processMessage s (.heartbeat simulation_running) = s := rfl

/-- Claim C9: a received message whose payload fails JSON parsing is discarded
atomically — the catch block only logs, so neither the current snapshot data,
nor the history, nor the error state changes. -/
theorem parse_failure_discarded (parseMsg : String → Option WsMessage)
    (s : DashboardState) (raw : String) (h : parseMsg raw = none) :
    onRawMessage parseMsg s raw = s := by
  unfold onRawMessage
  rw [h]

/-- Witness for C9: a parse function that rejects a concrete payload leaves a
concrete state unchanged. -/
theorem parse_failure_discarded_witness :
    onRawMessage (fun _ => none) initialDashboardState "not valid json"
      = initialDashboardState :=
  parse_failure_discarded (fun _ => none) initialDashboardState "not valid json" rfl

/-- Modelled from the spec: the Simulation Clock's run states
(`idle → running → {paused, stopped}`); the backend simulation engine is not
among the provided source files. -/
inductive ClockState where
  | idle
  | running
  | paused
  | stopped
  deriving DecidableEq

/-- Result of a control operation: `success` or an `error` with a code. -/
inductive CommandResult where
  | success
  | error (code : String)
  deriving DecidableEq

/-- Modelled from the spec: `stop() → success | error(not_running)` — stopping
from `running` or `paused` transitions to the terminal `stopped` state; any
other state is reported as `not_running` with no state change.  The backend
Clock implementation is not among the provided source files. -/
def stopCommand : ClockState → CommandResult × ClockState
  | .running => (.success, .stopped)
  | .paused => (.success, .stopped)
  | s => (.error "not_running", s)

/-- Claim C6: `stop()` is idempotent in the spec's sense — from `running`, the
first call yields exactly one running-to-stopped transition; the second call
returns the "already stopped" `not_running` error and changes no state. -/
theorem stop_idempotent :
    stopCommand .running = (CommandResult.success, ClockState.stopped) ∧
    stopCommand (stopCommand .running).2
      = (CommandResult.error "not_running", ClockState.stopped) := by
  decide

/-- A partial parameter-update payload: each field is optionally present
(spec: `update_parameters(partial_parameters)`). -/
structure ParamUpdate where
  arc_voltage : Option ℚ
  arc_current : Option ℚ
  power_factor : Option ℚ
  electrode_position : Option ℚ
  oxygen_flow_rate : Option ℚ
  carbon_injection_rate : Option ℚ
  lime_addition_rate : Option ℚ
  dolomite_addition_rate : Option ℚ
  deriving DecidableEq

/-- The empty partial update (no field present). -/
def emptyParamUpdate : ParamUpdate where
  arc_voltage := none
  arc_current := none
  power_factor := none
  electrode_position := none
  oxygen_flow_rate := none
  carbon_injection_rate := none
  lime_addition_rate := none
  dolomite_addition_rate := none

/-- Modelled from the spec: validation of a partial update against the
documented ranges — arc voltage > 0, arc current > 0, 0 < power factor ≤ 1,
feed rates ≥ 0 (electrode position has no documented range).  Returns the
`out_of_range:<field>` code of the first out-of-range field, if any. -/
def validateUpdate (u : ParamUpdate) : Option String :=
  if u.arc_voltage.any (fun v => decide (v ≤ 0)) then some "out_of_range:arc_voltage"
  else if u.arc_current.any (fun v => decide (v ≤ 0)) then some "out_of_range:arc_current"
  else if u.power_factor.any (fun v => decide (v ≤ 0) || decide (1 < v)) then
    some "out_of_range:power_factor"
  else if u.oxygen_flow_rate.any (fun v => decide (v < 0)) then
    some "out_of_range:oxygen_flow_rate"
  else if u.carbon_injection_rate.any (fun v => decide (v < 0)) then
    some "out_of_range:carbon_injection_rate"
  else if u.lime_addition_rate.any (fun v => decide (v < 0)) then
    some "out_of_range:lime_addition_rate"
  else if u.dolomite_addition_rate.any (fun v => decide (v < 0)) then
    some "out_of_range:dolomite_addition_rate"
  else none

/-- Applying a validated partial update: present fields overwrite. -/
def applyUpdate (p : OperatingParams) (u : ParamUpdate) : OperatingParams where
  arc_voltage := u.arc_voltage.getD p.arc_voltage
  arc_current := u.arc_current.getD p.arc_current
  power_factor := u.power_factor.getD p.power_factor
  electrode_position := u.electrode_position.getD p.electrode_position
  oxygen_flow_rate := u.oxygen_flow_rate.getD p.oxygen_flow_rate
  carbon_injection_rate := u.carbon_injection_rate.getD p.carbon_injection_rate
  lime_addition_rate := u.lime_addition_rate.getD p.lime_addition_rate
  dolomite_addition_rate := u.dolomite_addition_rate.getD p.dolomite_addition_rate

/-- Modelled from the spec:
`update_parameters(partial) → success | error(not_running, out_of_range:<field>)`,
rejected when the Clock is `stopped`; validation errors are rejected at the
Command Channel boundary and never reach the simulation state.  The backend
implementation is not among the provided source files. -/
def updateParameters (clock : ClockState) (p : OperatingParams) (u : ParamUpdate) :
    CommandResult × OperatingParams :=
  if clock = .stopped then (.error "not_running", p)
  else
    match validateUpdate u with
    | some e => (.error e, p)
    | none => (.success, applyUpdate p u)

/-- Claim C4: `update_parameters({arc_voltage: -10})` on a running simulation
is rejected with `out_of_range:arc_voltage` and the stored operating
parameters are returned unchanged — the out-of-range value never reaches the
simulation state, so the next snapshot (a function of that state) is
unaffected. -/
theorem out_of_range_update_rejected (p : OperatingParams) :
    updateParameters .running p { emptyParamUpdate with arc_voltage := some (-10) }
      = (CommandResult.error "out_of_range:arc_voltage", p) := by
  have hval : validateUpdate { emptyParamUpdate with arc_voltage := some (-10) }
      = some "out_of_range:arc_voltage" := by decide
  unfold updateParameters
  rw [if_neg (by decide), hval]

/-- The pending material-input form state of `ControlPanel`
(`materialInput` state: material name, amount in kg, target zone). -/
structure MaterialInput where
  material_name : String
  amount : ℚ
  zone : String
  deriving DecidableEq

/-- The `useState` initial value of `materialInput`, which is also the reset
value after a successful submission. -/
def initialMaterialInput : MaterialInput where
  material_name := ""
  amount := 0
  zone := "liquid_metal"

/-- `ControlPanel.handleAddMaterial`: sends the request (first component:
`some input` = `onAddMaterial(materialInput)` called) and resets the form only
when the name is non-empty (truthy) and the amount is strictly positive;
otherwise no request is sent and the form state is untouched.  The add button
is likewise disabled exactly when `!material_name || amount <= 0`. -/
def handleAddMaterial (input : MaterialInput) : Option MaterialInput × MaterialInput :=
  if input.material_name ≠ "" ∧ 0 < input.amount then
    (some input, initialMaterialInput)
  else
    (none, input)

/-- The zones known to the system (spec data model:
arc | liquid_metal | slag | refractory). -/
def knownZones : List String := ["arc", "liquid_metal", "slag", "refractory"]

/-- Modelled from the spec:
`add_material(material_name, amount_kg, zone) → success | error(not_running,
invalid_amount, unknown_zone)`; mass must be > 0.  The backend implementation
is not among the provided source files. -/
def addMaterial (clock : ClockState) (req : MaterialInput) : CommandResult :=
  if clock = .stopped then .error "not_running"
  else if req.amount ≤ 0 then .error "invalid_amount"
  else if knownZones.contains req.zone then .success
  else .error "unknown_zone"

/-- Claim C5: an `add_material` request is only ever issued with a non-empty
name and strictly positive amount — for any material input with amount ≤ 0 or
empty name the handler sends no request and leaves the pending input
unchanged; and (per the spec's command contract) an invalid amount yields the
`invalid_amount` error rather than any state change. -/
theorem invalid_material_not_sent (input : MaterialInput)
    (h : input.amount ≤ 0 ∨ input.material_name = "") :
    handleAddMaterial input = (none, input) ∧
    (input.amount ≤ 0 →
      addMaterial .running input = CommandResult.error "invalid_amount") := by
  constructor
  · unfold handleAddMaterial
    rw [if_neg]
    rintro ⟨hname, hamt⟩
    rcases h with h | h
    · exact absurd hamt (not_lt.mpr h)
    · exact hname h
  · intro ha
    unfold addMaterial
    rw [if_neg (by decide), if_pos ha]

/-- Witness for C5: a concrete negative-amount input is not sent, the form is
unchanged, and the spec-level command errors with `invalid_amount`. -/
theorem invalid_material_not_sent_witness :
    handleAddMaterial ⟨"steel_scrap", -5, "liquid_metal"⟩
      = (none, ⟨"steel_scrap", -5, "liquid_metal"⟩) ∧
    addMaterial .running ⟨"steel_scrap", -5, "liquid_metal"⟩
      = CommandResult.error "invalid_amount" := by
  have h := invalid_material_not_sent ⟨"steel_scrap", -5, "liquid_metal"⟩
    (Or.inl (by norm_num))
  exact ⟨h.1, h.2 (by norm_num)⟩

/-- JavaScript `a || b` on a possibly-absent number: an absent (`undefined`)
or zero value falls back to `b`. -/
def jsOrElse (x : Option ℚ) (b : ℚ) : ℚ :=
  match x with
  | none => b
  | some q => if q = 0 then b else q

/-- JavaScript `Math.round`: rounds half toward positive infinity. -/
def jsRound (q : ℚ) : ℤ := ⌊q + 1/2⌋

/-- One entry of `ChartsPanel.chartData`. -/
structure ChartPoint where
  time : ℚ
  metalTemp : ℤ
  slagTemp : ℤ
  refractoryTemp : ℤ
  power : ℤ
  carbon : ℚ
  silicon : ℚ
  deriving DecidableEq

/-- The per-entry mapping of `ChartsPanel.chartData`: temperatures and power
are rounded; the carbon oxidation-rate series is
`liquid_metal > 1200 ? (liquid_metal - 1200) / 100 : 0` and the silicon series
`liquid_metal > 1400 ? (liquid_metal - 1400) / 200 : 0` (an absent temperature
compares false, giving 0, as `undefined > 1200` is false). -/
def chartPoint (index : ℕ) (data : Snapshot) : ChartPoint where
  time := jsOrElse data.simulation_time index
  metalTemp := jsRound (jsOrElse data.zt_liquid_metal 0)
  slagTemp := jsRound (jsOrElse data.zt_slag 0)
  refractoryTemp := jsRound (jsOrElse data.zt_refractory 0)
  power := jsRound (jsOrElse data.current_power 0)
  carbon :=
    match data.zt_liquid_metal with
    | some v => if 1200 < v then (v - 1200) / 100 else 0
    | none => 0
  silicon :=
    match data.zt_liquid_metal with
    | some v => if 1400 < v then (v - 1400) / 200 else 0
    | none => 0

/-- `ChartsPanel.chartData`: `simulationHistory.map((data, index) => ...)`. -/
def chartData (simulationHistory : List Snapshot) : List ChartPoint :=
  simulationHistory.mapIdx chartPoint

/-- Claim C8: every charted history entry's oxidation rates gate on the
species-specific ignition temperatures — the carbon rate is 0 at or below the
1200-degree carbon threshold and strictly positive above it, and the silicon
rate is 0 at or below the higher 1400-degree silicon threshold and strictly
positive above it.  Every entry of `chartData` is `chartPoint index data` for
its history entry `data`. -/
theorem oxidation_ignition_gating (index : ℕ) (data : Snapshot) (v : ℚ)
    (hv : data.zt_liquid_metal = some v) :
    ((v ≤ 1200 → (chartPoint index data).carbon = 0) ∧
     (1200 < v → 0 < (chartPoint index data).carbon)) ∧
    ((v ≤ 1400 → (chartPoint index data).silicon = 0) ∧
     (1400 < v → 0 < (chartPoint index data).silicon)) := by
  have hc : (chartPoint index data).carbon
      = if 1200 < v then (v - 1200) / 100 else 0 := by
    simp [chartPoint, hv]
  have hs : (chartPoint index data).silicon
      = if 1400 < v then (v - 1400) / 200 else 0 := by
    simp [chartPoint, hv]
  refine ⟨⟨?_, ?_⟩, ?_, ?_⟩
  · intro h
    rw [hc, if_neg (not_lt.mpr h)]
  · intro h
    rw [hc, if_pos h]
    have : 0 < v - 1200 := by linarith
    positivity
  · intro h
    rw [hs, if_neg (not_lt.mpr h)]
  · intro h
    rw [hs, if_pos h]
    have : 0 < v - 1400 := by linarith
    positivity

/-- Witness for C8: `sampleSnapshot1` (liquid metal at 1650) has strictly
positive carbon and silicon oxidation rates, while a 1100-degree snapshot has
both rates equal to 0. -/
theorem oxidation_ignition_gating_witness :
    0 < (chartPoint 0 sampleSnapshot1).carbon ∧
    0 < (chartPoint 0 sampleSnapshot1).silicon ∧
    (chartPoint 0 ⟨some 3, some 16000, some 1100, none, none⟩).carbon = 0 ∧
    (chartPoint 0 ⟨some 3, some 16000, some 1100, none, none⟩).silicon = 0 := by
  have h1 := oxidation_ignition_gating 0 sampleSnapshot1 1650 rfl
  have h2 := oxidation_ignition_gating 0 ⟨some 3, some 16000, some 1100, none, none⟩
    1100 rfl
  exact ⟨h1.1.2 (by norm_num), h1.2.2 (by norm_num),
    h2.1.1 (by norm_num), h2.2.1 (by norm_num)⟩

/-- A JavaScript number as stored by the form handlers: NaN, the two
infinities, or an (idealized exact) finite value. -/
inductive JSNum where
  | nan
  | inf
  | negInf
  | num (q : ℚ)
  deriving DecidableEq

/-- JavaScript truthiness of a number: `NaN` and `0` are falsy; every other
number, including the infinities, is truthy. -/
def JSNum.truthy : JSNum → Bool
  | .nan => false
  | .num q => decide (q ≠ 0)
  | _ => true

/-- Whether a JavaScript number is finite (`Number.isFinite`): neither NaN nor
an infinity. -/
def JSNum.isFinite : JSNum → Bool
  | .num _ => true
  | _ => false

/-- The JavaScript expression `x || 0`. -/
def jsOrZero (x : JSNum) : JSNum :=
  if x.truthy then x else .num 0

/-- Accumulates a run of leading decimal digits: returns the value read so
far, the number of digits consumed, and the remaining characters. -/
def parseDigitsAux (acc : ℕ) (cnt : ℕ) : List Char → ℕ × ℕ × List Char
  | [] => (acc, cnt, [])
  | c :: cs =>
      if c.isDigit then parseDigitsAux (10 * acc + (c.toNat - '0'.toNat)) (cnt + 1) cs
      else (acc, cnt, c :: cs)

/-- The unsigned decimal magnitude at the head of the character list:
`Digits [. Digits]` or `. Digits`; `none` when no digit is present.
Decimal values are represented exactly as rationals. -/
def parseMagnitude (cs : List Char) : Option ℚ :=
  let r := parseDigitsAux 0 0 cs
  match r.2.2 with
  | '.' :: rest2 =>
      let rf := parseDigitsAux 0 0 rest2
      if r.2.1 = 0 ∧ rf.2.1 = 0 then none
      else some (mkRat (r.1 * 10 ^ rf.2.1 + rf.1) (10 ^ rf.2.1))
  | _ => if r.2.1 = 0 then none else some ((r.1 : ℚ))

/-- The part of `parseFloat` after the optional sign: the literal prefix
`Infinity` yields the signed infinity, else the decimal magnitude (or NaN
when none parses). -/
def parseSigned (neg : Bool) (cs : List Char) : JSNum :=
  if cs.take 8 = "Infinity".toList then
    if neg then .negInf else .inf
  else
    match parseMagnitude cs with
    | none => .nan
    | some q => .num (if neg then -q else q)

/-- The ECMAScript built-in `parseFloat` as used by the form handlers:
leading whitespace is skipped, an optional sign is read, then the longest
numeric prefix (`Infinity` or a decimal literal) is converted; a string with
no parsable prefix gives NaN.  Exponent suffixes and float rounding are
idealized away (finite decimal literals are taken as exact rationals), which
does not affect the NaN/Infinity/finite classification of the inputs treated
below. -/
def parseFloat (s : String) : JSNum :=
  match s.toList.dropWhile Char.isWhitespace with
  | '-' :: rest => parseSigned true rest
  | '+' :: rest => parseSigned false rest
  | rest => parseSigned false rest

/-- `ControlPanel.handleSimulationParamChange`: spreads the previous
`simulationParams` object (here a field-name-indexed map, as the field is a
computed key) and stores `parseFloat(value) || 0` at the edited field. -/
def handleSimulationParamChange (prev : String → JSNum) (field value : String) :
    String → JSNum :=
  fun f => if f = field then jsOrZero (parseFloat value) else prev f

/-- `ControlPanel.handleOperatingParamChange`: identical update rule on the
`operatingParams` object. -/
def handleOperatingParamChange (prev : String → JSNum) (field value : String) :
    String → JSNum :=
  fun f => if f = field then jsOrZero (parseFloat value) else prev f

theorem jsOrZero_ne_nan (x : JSNum) : jsOrZero x ≠ JSNum.nan := by
  unfold jsOrZero
  cases x with
  | nan => simp [JSNum.truthy]
  | inf => simp [JSNum.truthy]
  | negInf => simp [JSNum.truthy]
  | num q =>
      by_cases h : q = 0 <;> simp [JSNum.truthy, h]

/-- Claim C10, counterexample: the claim says every edit stores a finite
number, but the input string `Infinity` parses to a truthy Infinity, so the
handler stores the non-finite value Infinity at the edited field. -/
theorem param_change_stores_infinity :
    (handleSimulationParamChange (fun _ => JSNum.num 0) "arc_voltage" "Infinity")
        "arc_voltage" = JSNum.inf ∧
    JSNum.inf.isFinite = false := by
  decide

/-- Claim C10 as amended: every edit stores a non-NaN value — for any input
string the value written at the edited field is `parseFloat` of the string
when that is a truthy number and `0` otherwise (other fields are left
unchanged), so NaN is never stored through these handlers; Infinity, however,
can be stored. -/
theorem param_change_stores_non_nan (prev : String → JSNum) (field value : String)
    (hprev : ∀ f, prev f ≠ JSNum.nan) :
    (handleSimulationParamChange prev field value) field = jsOrZero (parseFloat value) ∧
    (handleOperatingParamChange prev field value) field = jsOrZero (parseFloat value) ∧
    ((parseFloat value).truthy = true →
      (handleSimulationParamChange prev field value) field = parseFloat value) ∧
    ((parseFloat value).truthy = false →
      (handleSimulationParamChange prev field value) field = JSNum.num 0) ∧
    (∀ f, (handleSimulationParamChange prev field value) f ≠ JSNum.nan) ∧
    (∀ f, (handleOperatingParamChange prev field value) f ≠ JSNum.nan) := by
  have hupd : ∀ f, (handleSimulationParamChange prev field value) f
      = if f = field then jsOrZero (parseFloat value) else prev f := fun _ => rfl
  have hupd2 : ∀ f, (handleOperatingParamChange prev field value) f
      = if f = field then jsOrZero (parseFloat value) else prev f := fun _ => rfl
  refine ⟨by rw [hupd, if_pos rfl], by rw [hupd2, if_pos rfl], ?_, ?_, ?_, ?_⟩
  · intro ht
    rw [hupd, if_pos rfl]
    unfold jsOrZero
    rw [ht, if_pos rfl]
  · intro ht
    rw [hupd, if_pos rfl]
    unfold jsOrZero
    rw [ht]
    rfl
  · intro f
    rw [hupd f]
    by_cases h : f = field
    · rw [if_pos h]; exact jsOrZero_ne_nan _
    · rw [if_neg h]; exact hprev f
  · intro f
    rw [hupd2 f]
    by_cases h : f = field
    · rw [if_pos h]; exact jsOrZero_ne_nan _
    · rw [if_neg h]; exact hprev f

/-- Witness for the amended C10: editing `arc_voltage` with the string `450`
stores the number 450, and no field of the result is NaN. -/
theorem param_change_stores_non_nan_witness :
    (handleSimulationParamChange (fun _ => JSNum.num 0) "arc_voltage" "450")
        "arc_voltage" = JSNum.num 450 ∧
    (handleSimulationParamChange (fun _ => JSNum.num 0) "arc_voltage" "450")
        "arc_voltage" ≠ JSNum.nan := by
  have h := param_change_stores_non_nan (fun _ => JSNum.num 0) "arc_voltage" "450"
    (fun _ h => JSNum.noConfusion h)
  exact ⟨h.1.trans (by decide), h.2.2.2.2.1 "arc_voltage"⟩
